import Mathlib

/-!
Verification of the meal-resolution, formatting and menu-building logic of the
bowdoin-menus scripts.

The repository contains two parallel implementations of the "upcoming meal"
resolver:

* `src/models.py` (`Meals.get_upcoming_meal`): a table-driven resolver.  Each
  entry of the schedule table is a 4-tuple
  `(hour_check, special_check, special_meal, default_meal)`.  The function
  returns a bare meal string (one of "breakfast", "brunch", "lunch",
  "dinner") or, if a rule with a satisfied special check carried `None` as
  its special meal, the Python value `None` (never happens for the shipped
  table).  We embed that dynamic range as `Option Meal`: `some m` is the meal
  string `mealStr m`, `none` is Python `None`.

* `src/driver.py` (`Meals.get_upcoming_meal`): the original nested-conditional
  resolver; it always returns a bare meal string, embedded as `Meal`.

Hours are embedded as `Nat` (the Python value `datetime.now().hour`, which in
reality lies in `0..23`); days of week as an enumeration rendered to the
`strftime("%a").lower()` strings the source compares against.
-/

/-- Meal periods (`class Meals` constants in `models.py` / `driver.py`). -/
inductive Meal
  | breakfast
  | brunch
  | lunch
  | dinner
deriving DecidableEq, Fintype

/-- The string constants `Meals.BREAKFAST` etc. from the source. -/
def mealStr : Meal → String
  | .breakfast => "breakfast"
  | .brunch => "brunch"
  | .lunch => "lunch"
  | .dinner => "dinner"

/-- Physical dining locations (`class Location`). -/
inductive Location
  | moulton
  | thorne
deriving DecidableEq, Fintype

/-- The numeric menu ids `Location.MOULTON = 48`, `Location.THORNE = 49`. -/
def locationId : Location → Nat
  | .moulton => 48
  | .thorne => 49

/-- Days of the week, as produced by `datetime.now().strftime("%a").lower()`. -/
inductive Day
  | mon
  | tue
  | wed
  | thu
  | fri
  | sat
  | sun
deriving DecidableEq, Fintype

/-- The lowercase three-letter day string the source code compares against. -/
def dayStr : Day → String
  | .mon => "mon"
  | .tue => "tue"
  | .wed => "wed"
  | .thu => "thu"
  | .fri => "fri"
  | .sat => "sat"
  | .sun => "sun"

/-- `is_weekday = day_of_week_short not in ("sat", "sun")` (models.py line 40). -/
def isWeekday (d : Day) : Bool :=
  !(dayStr d == "sat" || dayStr d == "sun")

/-- Python tuple unpacking `a, b = s` applied to a string value `s`: it
iterates the string and succeeds exactly when `s` has two characters
(yielding two one-character strings); otherwise it raises `ValueError`
(embedded as `none`).  `build_request` (api/menu.py line 39) and
`stringify` (menu_formatter.py line 23) perform this unpacking on the
resolver's result. -/
def pyUnpack2 (s : String) : Option (String × String) :=
  match s.toList with
  | [c₁, c₂] => some (String.mk [c₁], String.mk [c₂])
  | _ => none

/-- One entry of the schedule table in `models.py` (lines 54-125):
`(hour_check, special_check, special_meal, default_meal)`. -/
structure ScheduleRule where
  hour_check : Nat → Bool
  special_check : Option (String → Bool)
  special_meal : Option Meal
  default_meal : Meal

/-- The schedule table `schedule[location][is_weekday]` of
`Meals.get_upcoming_meal` in `models.py`, rules in source order. -/
def schedule (location : Location) (is_weekday : Bool) : List ScheduleRule :=
  match location, is_weekday with
  | .moulton, true =>
      [ -- Current day's breakfast (Mon-Fri before 10am)
        ⟨fun hour => decide (0 ≤ hour ∧ hour < 10), none, none, Meal.breakfast⟩,
        -- Next day's first meal (after Moulton's 7pm dinner); Friday rolls to brunch
        ⟨fun hour => decide (19 ≤ hour ∧ hour < 24), some (fun day => day == "fri"),
          some Meal.brunch, Meal.breakfast⟩,
        -- 10am-2pm is lunch
        ⟨fun hour => decide (10 ≤ hour ∧ hour < 14), none, none, Meal.lunch⟩,
        -- 2pm-7pm is dinner
        ⟨fun hour => decide (14 ≤ hour ∧ hour < 19), none, none, Meal.dinner⟩ ]
  | .moulton, false =>
      [ -- Brunch before 1pm, or next day's brunch after the 7pm dinner
        ⟨fun hour => decide ((0 ≤ hour ∧ hour < 13) ∨ (19 ≤ hour ∧ hour < 24)),
          none, none, Meal.brunch⟩,
        -- 1pm-7pm is dinner
        ⟨fun hour => decide (13 ≤ hour ∧ hour < 19), none, none, Meal.dinner⟩ ]
  | .thorne, true =>
      [ -- Current day's breakfast (Mon-Fri before 10am)
        ⟨fun hour => decide (0 ≤ hour ∧ hour < 10), none, none, Meal.breakfast⟩,
        -- Next day's first meal (after Thorne's 8pm dinner); Friday rolls to brunch
        ⟨fun hour => decide (20 ≤ hour ∧ hour < 24), some (fun day => day == "fri"),
          some Meal.brunch, Meal.breakfast⟩,
        -- 10am-2pm is lunch
        ⟨fun hour => decide (10 ≤ hour ∧ hour < 14), none, none, Meal.lunch⟩,
        -- 2pm-8pm is dinner
        ⟨fun hour => decide (14 ≤ hour ∧ hour < 20), none, none, Meal.dinner⟩ ]
  | .thorne, false =>
      [ -- Brunch before 2pm, or next day's brunch after the 8pm dinner
        ⟨fun hour => decide ((0 ≤ hour ∧ hour < 14) ∨ (20 ≤ hour ∧ hour < 24)),
          none, none, Meal.brunch⟩,
        -- 2pm-8pm is dinner
        ⟨fun hour => decide (14 ≤ hour ∧ hour < 20), none, none, Meal.dinner⟩ ]

/-- The rule loop in `models.py` lines 131-137: first rule whose
`hour_check` fires. -/
def findMatch : List ScheduleRule → Nat → Option ScheduleRule
  | [], _ => none
  | r :: rs, h => if r.hour_check h then some r else findMatch rs h

/-- Applying a matched rule (models.py lines 134-137): if the rule has a
`special_check` and it matches today, return `special_meal`, else the
`default_meal`. -/
def ruleResult (r : ScheduleRule) (day : String) : Option Meal :=
  match r.special_check with
  | some sc => if sc day then r.special_meal else some r.default_meal
  | none => some r.default_meal

/-- `Meals.get_upcoming_meal` from `models.py`, together with whether the
"Meal not found in normal schedule" warning (lines 140-146) was logged.
The first component is the returned Python value (`some m` = the meal
string, `none` = Python `None`); the second is `true` exactly when no rule
matched and the defensive `Meals.BREAKFAST` fallback was taken. -/
def models_resolve (location : Location) (d : Day) (h : Nat) : Option Meal × Bool :=
  match findMatch (schedule location (isWeekday d)) h with
  | some r => (ruleResult r (dayStr d), false)
  | none => (some Meal.breakfast, true)

/-- The value returned by `Meals.get_upcoming_meal` (`models.py`). -/
def models_get_upcoming_meal (location : Location) (d : Day) (h : Nat) : Option Meal :=
  (models_resolve location d h).1

/-- `Meals.get_upcoming_meal` from `driver.py` (lines 139-213): the original
nested-conditional resolver.  Each `let` block embeds one of the four
guarded blocks of `return` statements; a block that falls through without
returning is `none`, and the trailing `.getD Meal.breakfast` is the
fallback `return Meals.BREAKFAST` at line 213. -/
def driver_get_upcoming_meal (location : Location) (d : Day) (h : Nat) : Meal :=
  let current_day := dayStr d
  let moulton_weekday : Option Meal :=
    if location = Location.moulton ∧ ¬(current_day = "sat" ∨ current_day = "sun") then
      if (0 ≤ h ∧ h < 10) ∨ (19 ≤ h ∧ h < 24) then
        if current_day = "fri" ∧ (19 ≤ h ∧ h < 24) then some Meal.brunch
        else some Meal.breakfast
      else if 10 ≤ h ∧ h < 14 then some Meal.lunch
      else if 14 ≤ h ∧ h < 19 then some Meal.dinner
      else none
    else none
  let moulton_weekend : Option Meal :=
    if location = Location.moulton ∧ (current_day = "sat" ∨ current_day = "sun") then
      if (0 ≤ h ∧ h < 11) ∨ (19 ≤ h ∧ h < 24) then
        if current_day = "sun" ∧ (19 ≤ h ∧ h < 24) then some Meal.breakfast
        else some Meal.brunch
      else if 11 ≤ h ∧ h < 13 then some Meal.lunch
      else if 13 ≤ h ∧ h < 19 then some Meal.dinner
      else none
    else none
  let thorne_weekday : Option Meal :=
    if location = Location.thorne ∧ ¬(current_day = "sat" ∨ current_day = "sun") then
      if (0 ≤ h ∧ h < 10) ∨ (20 ≤ h ∧ h < 24) then
        if current_day = "fri" ∧ (20 ≤ h ∧ h < 24) then some Meal.brunch
        else some Meal.breakfast
      else if 10 ≤ h ∧ h < 14 then some Meal.lunch
      else if 14 ≤ h ∧ h < 20 then some Meal.dinner
      else none
    else none
  let thorne_weekend : Option Meal :=
    if location = Location.thorne ∧ (current_day = "sat" ∨ current_day = "sun") then
      if (0 ≤ h ∧ h < 14) ∨ (20 ≤ h ∧ h < 24) then
        if current_day = "sun" ∧ (20 ≤ h ∧ h < 24) then some Meal.breakfast
        else some Meal.brunch
      else if 14 ≤ h ∧ h < 20 then some Meal.dinner
      else none
    else none
  (((moulton_weekday.orElse fun _ => moulton_weekend).orElse
      fun _ => thorne_weekday).orElse fun _ => thorne_weekend).getD Meal.breakfast

/-- What the send loop of `driver.py` `__main__` (lines 621-632) does with one
`(text, label)` pair: call `send_message(text)`, or log/print the
"too long" critical alert, or (for falsy `text`) do nothing. -/
inductive SendAction
  | send (text : String)
  | alert (label : String)
  | skip
deriving DecidableEq

/-- The body of the send loop in `driver.py` lines 621-632:
`if text: if len(text) < 1000: send_message(text) else: logging.critical(...); print(...)`. -/
def dispatch (text label : String) : SendAction :=
  if text ≠ "" then
    if text.length < 1000 then SendAction.send text
    else SendAction.alert label
  else SendAction.skip

/-- Python `str.capitalize()`: first character uppercased, the rest
lowercased. -/
def pyCapitalize (s : String) : String :=
  match s.toList with
  | [] => ""
  | c :: cs => String.mk (c.toUpper :: cs.map Char.toLower)

/-- `loc_name = "🏠 Moulton Union" if location_int == Location.MOULTON else "🌲 Thorne"`
(menu_formatter.py line 28, driver.py line 364). -/
def locName (location : Location) : String :=
  if location = Location.moulton then "🏠 Moulton Union" else "🌲 Thorne"

/-- `real_items = [i for i in items if i and i.strip()]`
(menu_formatter.py line 35): drop `None`, empty and whitespace-only items. -/
def realItems (items : List (Option String)) : List String :=
  items.filterMap fun i =>
    match i with
    | none => none
    | some s => if s ≠ "" ∧ s.trim ≠ "" then some s else none

/-- One category block of the formatter's output
(menu_formatter.py lines 40-43). -/
def formatCategory (category : String) (items : List String) : String :=
  category ++ ":\n" ++ items.foldl (fun acc i => acc ++ "- " ++ i ++ "\n") "" ++ "\n"

/-- The output accumulation of `stringify` (menu_formatter.py lines 31-45):
header line, then each category that has real items. -/
def formatMenu (location : Location) (meal_name_str timestamp : String)
    (menu : List (String × List (Option String))) : String :=
  menu.foldl
    (fun acc c =>
      let real := realItems c.2
      if real.isEmpty then acc else acc ++ formatCategory c.1 real)
    (locName location ++ " " ++ pyCapitalize meal_name_str ++ " - " ++ timestamp ++ ":\n\n")

/-- `stringify` from `menu_formatter.py` (lines 14-45).  The menu dict is a
list of `(category, items)` pairs; `timestamp` stands for
`datetime.now().strftime("%d %b %Y")`.  The guard
`if not menu or not any(menu.values())` returns `""`; past the guard the
code unpacks `meal_name_str, _ = Meals().get_upcoming_meal(location_int)`,
which raises (embedded as `none`) unless the resolver's value is a
two-element sequence. -/
def stringify (location : Location) (d : Day) (h : Nat) (timestamp : String)
    (menu : List (String × List (Option String))) : Option String :=
  -- `not menu or not any(menu.values())`: empty dict, or every value list empty
  if menu.all (fun c => c.2.isEmpty) then some ""
  else
    match models_get_upcoming_meal location d h with
    | none => none  -- unpacking Python None raises TypeError
    | some m =>
        match pyUnpack2 (mealStr m) with
        | none => none  -- ValueError: meal string is not a two-element sequence
        | some (meal_name_str, _) => some (formatMenu location meal_name_str timestamp menu)

/-- `stringify` from `driver.py` (lines 347-375).  This version takes an
optional menu (`None` possible), uses the driver's own bare-string
resolver directly (no tuple unpacking), keeps a category whenever its
item list is non-empty, and keeps every truthy item — whitespace-only
items are NOT dropped here. -/
def driver_stringify (location : Location) (d : Day) (h : Nat) (timestamp : String)
    (menu : Option (List (String × List (Option String)))) : String :=
  match menu with
  | none => ""
  | some menu =>
    if menu.all (fun c => c.2.isEmpty) then ""
    else
      let meal := driver_get_upcoming_meal location d h
      menu.foldl
        (fun acc c =>
          if c.2.isEmpty then acc
          else
            acc ++ c.1 ++ ":\n" ++
              c.2.foldl (fun a i =>
                match i with
                | some s => if s ≠ "" then a ++ "- " ++ s ++ "\n" else a
                | none => a) "" ++ "\n")
        (locName location ++ " " ++ pyCapitalize (mealStr meal) ++ " - " ++ timestamp ++ ":\n\n")

/-- A `<record>` element as read by `extract_records` (api/menu.py lines
109-129): each child element is either absent (`none`) or present with an
optional text (`some txt`, where `txt = none` embeds a present but empty
element whose `.text` is Python `None`). -/
structure XmlRecord where
  course : Option (Option String)
  webLongName : Option (Option String)

/-- `course_element.text if course_element is not None else "Uncategorized Course"`
(api/menu.py lines 117-121). -/
def courseText (r : XmlRecord) : Option String :=
  match r.course with
  | some t => t
  | none => some "Uncategorized Course"

/-- `web_long_name_element.text if web_long_name_element is not None else None`
(api/menu.py lines 124-125). -/
def itemText (r : XmlRecord) : Option String :=
  match r.webLongName with
  | some t => t
  | none => none

/-- `extract_records` (api/menu.py lines 109-129): one loop over the records
appending to `course_values` and `item_names` in lockstep — equivalently,
two maps over the record list. -/
def extract_records (records : List XmlRecord) :
    List (Option String) × List (Option String) :=
  (records.map courseText, records.map itemText)

/-- Helper for `re.sub(r"\s+", " ", item)`: each maximal run of whitespace
characters collapses to a single space.  The boolean flag records whether
the previous character was part of a whitespace run. -/
def collapseWsAux : Bool → List Char → List Char
  | _, [] => []
  | prevWs, c :: cs =>
    if c.isWhitespace then
      if prevWs then collapseWsAux true cs
      else ' ' :: collapseWsAux true cs
    else c :: collapseWsAux false cs

/-- `re.sub(r"\s+", " ", s)` (api/menu.py line 152). -/
def cleanSpaces (s : String) : String :=
  String.mk (collapseWsAux false s.toList)

/-- The menu dictionary built by `build_menu`: keys are course values
(Python strings or `None`), values are item lists.  Key order is
first-occurrence order (Python's `set` iteration order is arbitrary;
none of the verified properties depend on it). -/
abbrev MenuDict := List (Option String × List (Option String))

/-- `menu[course_values[idx]].append(item)`: append to the list stored under
`key` (the key is present in every reachable call). -/
def menuAppend (menu : MenuDict) (key item : Option String) : MenuDict :=
  menu.map fun kv => if kv.1 = key then (kv.1, kv.2 ++ [item]) else kv

/-- The population loop of `build_menu` (api/menu.py lines 147-158):
`for idx, item in enumerate(item_names): if item: item = re.sub(...);
menu[course_values[idx]].append(item)`.  `none` embeds the `IndexError`
raised when `idx` is out of range of `course_values`, or the `KeyError`
raised when the course key is missing from the dict. -/
def populate (course_values : List (Option String)) :
    Nat → List (Option String) → MenuDict → Option MenuDict
  | _, [], menu => some menu
  | idx, item :: rest, menu =>
    let item' : Option String :=
      match item with
      | some s => if s ≠ "" then some (cleanSpaces s) else some s
      | none => none
    match course_values[idx]? with
    | none => none
    | some key =>
      if key ∈ menu.map Prod.fst then
        populate course_values (idx + 1) rest (menuAppend menu key item')
      else none

/-- `build_menu` (api/menu.py lines 132-168): initialise
`{key: [] for key in set(course_values)}`, populate it, then delete every
key whose list is empty.  (`if not menu: return {}` returns the same empty
dict, so it is the identity here.) -/
def build_menu (course_values item_names : List (Option String)) : Option MenuDict :=
  let init : MenuDict := course_values.dedup.map fun k => (k, [])
  match populate course_values 0 item_names init with
  | none => none
  | some menu => some (menu.filter fun kv => !kv.2.isEmpty)

/-- The meal string constants have 9, 6, 5 and 6 characters, so Python's
two-variable tuple unpacking fails on every one of them. -/
theorem mealStr_unpack_none (m : Meal) : pyUnpack2 (mealStr m) = none := by
  cases m <;> rfl

/-- The first matching rule returned by the rule loop is a member of the
rule list. -/
theorem findMatch_mem : ∀ (rules : List ScheduleRule) (h : Nat) (r : ScheduleRule),
    findMatch rules h = some r → r ∈ rules := by
  intro rules
  induction rules with
  | nil => intro h r hf; simp [findMatch] at hf
  | cons a rest ih =>
    intro h r hf
    unfold findMatch at hf
    by_cases hc : a.hour_check h = true
    · rw [if_pos hc] at hf
      cases hf
      exact List.mem_cons_self a rest
    · rw [if_neg hc] at hf
      exact List.mem_cons_of_mem a (ih h r hf)

/-- Every rule of the shipped schedule table yields, on any day string, some
bare meal string — never Python `None`, and never a value that the callers'
two-variable unpacking could accept. -/
theorem schedule_rules_bare (location : Location) (wd : Bool) (r : ScheduleRule)
    (hr : r ∈ schedule location wd) (day : String) :
    ∃ m, ruleResult r day = some m ∧ pyUnpack2 (mealStr m) = none := by
  cases location <;> cases wd <;>
    simp only [schedule, List.mem_cons, List.not_mem_nil, or_false] at hr
  · -- moulton, weekend
    rcases hr with rfl | rfl
    · exact ⟨Meal.brunch, rfl, rfl⟩
    · exact ⟨Meal.dinner, rfl, rfl⟩
  · -- moulton, weekday
    rcases hr with rfl | rfl | rfl | rfl
    · exact ⟨Meal.breakfast, rfl, rfl⟩
    · by_cases hd : (day == "fri") = true
      · exact ⟨Meal.brunch, by simp [ruleResult, hd], rfl⟩
      · exact ⟨Meal.breakfast, by simp [ruleResult, hd], rfl⟩
    · exact ⟨Meal.lunch, rfl, rfl⟩
    · exact ⟨Meal.dinner, rfl, rfl⟩
  · -- thorne, weekend
    rcases hr with rfl | rfl
    · exact ⟨Meal.brunch, rfl, rfl⟩
    · exact ⟨Meal.dinner, rfl, rfl⟩
  · -- thorne, weekday
    rcases hr with rfl | rfl | rfl | rfl
    · exact ⟨Meal.breakfast, rfl, rfl⟩
    · by_cases hd : (day == "fri") = true
      · exact ⟨Meal.brunch, by simp [ruleResult, hd], rfl⟩
      · exact ⟨Meal.breakfast, by simp [ruleResult, hd], rfl⟩
    · exact ⟨Meal.lunch, rfl, rfl⟩
    · exact ⟨Meal.dinner, rfl, rfl⟩

/-- On every input — whichever location, day of week and hour value — the
`models.py` resolver returns a bare meal string, and the callers'
two-variable unpacking of that string fails. -/
theorem models_returns_bare (location : Location) (d : Day) (h : Nat) :
    ∃ m, models_get_upcoming_meal location d h = some m ∧
      pyUnpack2 (mealStr m) = none := by
  unfold models_get_upcoming_meal models_resolve
  cases hf : findMatch (schedule location (isWeekday d)) h with
  | none => exact ⟨Meal.breakfast, rfl, rfl⟩
  | some r =>
    obtain ⟨m, hm, hu⟩ :=
      schedule_rules_bare location (isWeekday d) r
        (findMatch_mem _ _ _ hf) (dayStr d)
    exact ⟨m, by simpa using hm, hu⟩

/-- The keys of the initial dict `{key: [] for key in set(course_values)}`
are exactly the deduplicated course values. -/
theorem keys_of_init (cs : List (Option String)) :
    ((cs.map fun k => (k, ([] : List (Option String)))).map Prod.fst) = cs := by
  induction cs with
  | nil => rfl
  | cons a rest ih => simp [ih]

/-- Appending an item under an existing key does not change the key list. -/
theorem menuAppend_keys (menu : MenuDict) (key item : Option String) :
    (menuAppend menu key item).map Prod.fst = menu.map Prod.fst := by
  induction menu with
  | nil => rfl
  | cons kv rest ih =>
    simp only [menuAppend, List.map_cons] at ih ⊢
    by_cases hk : kv.1 = key <;> simp [hk, ih]

/-- The population loop succeeds whenever the item list does not outrun
`course_values` and every course value is a key of the dict. -/
theorem populate_isSome (course_values : List (Option String)) :
    ∀ (item_names : List (Option String)) (idx : Nat) (menu : MenuDict),
      idx + item_names.length ≤ course_values.length →
      (∀ k ∈ course_values, k ∈ menu.map Prod.fst) →
      (populate course_values idx item_names menu).isSome := by
  intro items
  induction items with
  | nil => intro idx menu _ _; simp [populate]
  | cons a rest ih =>
    intro idx menu hlen hkeys
    have hidx : idx < course_values.length := by
      simp only [List.length_cons] at hlen; omega
    have hget : course_values[idx]? = some course_values[idx] :=
      List.getElem?_eq_getElem hidx
    have hmem : course_values[idx] ∈ course_values := List.getElem_mem hidx
    simp only [populate, hget]
    rw [if_pos (hkeys _ hmem)]
    apply ih
    · simp only [List.length_cons] at hlen; omega
    · intro k hk
      rw [menuAppend_keys]
      exact hkeys k hk

/-- Claim C1: the spec says the meal-resolution function returns a pair
(meal period, day offset ∈ {0,1}), never a bare meal string.  The code in
`models.py` instead returns a bare meal string on every input: the result
is `some m` for a meal `m` (never a pair), and the two-variable tuple
unpacking performed by its callers (`build_request` in api/menu.py and
`stringify` in menu_formatter.py) fails on that string — in Python, a
`ValueError`.  This theorem evaluates that behaviour on all inputs. -/
theorem c1_resolver_returns_bare_meal_string (location : Location) (d : Day) (h : Nat) :
    ∃ m, models_get_upcoming_meal location d h = some m ∧
      pyUnpack2 (mealStr m) = none :=
  models_returns_bare location d h

/-- Claim C2: the spec says Moulton at hour 20 resolves to
(breakfast, offset 1) on Sunday and (brunch, offset 1) on Saturday.  The
`models.py` weekend table has no Sunday special check at all: it returns
the bare string brunch on BOTH Sunday and Saturday at hour 20, while the
legacy resolver in `driver.py` returns breakfast on Sunday and brunch on
Saturday (both bare strings, no offset). -/
theorem c2_sunday_night_divergence :
    models_get_upcoming_meal .moulton .sun 20 = some Meal.brunch ∧
    models_get_upcoming_meal .moulton .sat 20 = some Meal.brunch ∧
    driver_get_upcoming_meal .moulton .sun 20 = Meal.breakfast ∧
    driver_get_upcoming_meal .moulton .sat 20 = Meal.brunch := by
  decide

/-- Claim C3: for every location, every hour 0..23 and every day of week
(hence both day types), exactly one rule of the `models.py` schedule
table has a matching hour predicate, the resolver never reaches the
defensive fallback (no warning is logged), and it returns a meal. -/
theorem c3_schedule_hours_partition :
    ∀ (location : Location) (d : Day) (h : Fin 24),
      ((schedule location (isWeekday d)).countP fun r => r.hour_check h.val) = 1 ∧
      (models_resolve location d h.val).2 = false ∧
      ∃ m, models_get_upcoming_meal location d h.val = some m := by
  decide

/-- Claim C4: the spec says Moulton at hour 20 resolves to
(brunch, offset 1) on Friday and (breakfast, offset 1) on Monday.  The
`models.py` resolver does choose brunch on Friday and breakfast on
Monday, but as bare meal strings: no day-offset component exists, and
the callers' pair unpacking of those strings fails. -/
theorem c4_friday_night_meals_bare :
    models_get_upcoming_meal .moulton .fri 20 = some Meal.brunch ∧
    models_get_upcoming_meal .moulton .mon 20 = some Meal.breakfast ∧
    pyUnpack2 (mealStr Meal.brunch) = none ∧
    pyUnpack2 (mealStr Meal.breakfast) = none := by
  decide

/-- Claim C5: exclusive upper bounds of the weekday windows of Moulton:
on any weekday, hour 9 resolves to breakfast and hour 10 to lunch; hour
13 resolves to lunch and hour 14 to dinner. -/
theorem c5_weekday_boundaries (d : Day) (hwd : isWeekday d = true) :
    models_get_upcoming_meal .moulton d 9 = some Meal.breakfast ∧
    models_get_upcoming_meal .moulton d 10 = some Meal.lunch ∧
    models_get_upcoming_meal .moulton d 13 = some Meal.lunch ∧
    models_get_upcoming_meal .moulton d 14 = some Meal.dinner := by
  revert hwd
  cases d <;> decide

/-- Witness for C5 at Wednesday. -/
theorem c5_weekday_boundaries_witness :
    isWeekday Day.wed = true ∧
    (models_get_upcoming_meal .moulton Day.wed 9 = some Meal.breakfast ∧
     models_get_upcoming_meal .moulton Day.wed 10 = some Meal.lunch ∧
     models_get_upcoming_meal .moulton Day.wed 13 = some Meal.lunch ∧
     models_get_upcoming_meal .moulton Day.wed 14 = some Meal.dinner) :=
  ⟨by decide, c5_weekday_boundaries Day.wed (by decide)⟩

/-- Claim C6: evaluation of the defensive fallback of the `models.py`
resolver at an input no rule matches (hour 24, which a real clock never
produces).  The code returns the bare string breakfast and logs the
warning (second component `true`); being a total function it raises no
exception.  The claim's asserted pair (breakfast, 0) is not what is
returned: there is no offset component. -/
theorem c6_fallback_returns_breakfast_with_warning :
    (∀ r ∈ schedule .moulton (isWeekday .mon), r.hour_check 24 = false) ∧
    models_resolve .moulton .mon 24 = (some Meal.breakfast, true) := by
  decide

/-- Claim C7: for every non-empty outbound text, the send loop of
`driver.py` calls the chat post client exactly when the text's length is
strictly below 1000; a text of length 1000 or more is never sent and is
instead surfaced as the critical alert. -/
theorem c7_send_iff_short (text label : String) (hne : text ≠ "") :
    (dispatch text label = SendAction.send text ↔ text.length < 1000) ∧
    (1000 ≤ text.length → dispatch text label = SendAction.alert label) := by
  unfold dispatch
  rw [if_pos hne]
  constructor
  · constructor
    · intro hd
      by_contra hl
      rw [if_neg hl] at hd
      exact SendAction.noConfusion hd
    · intro hl
      rw [if_pos hl]
  · intro hge
    have hl : ¬ text.length < 1000 := by omega
    rw [if_neg hl]

/-- Witness for C7 at a concrete short text. -/
theorem c7_send_iff_short_witness :
    ("menu text" : String) ≠ "" ∧
    ((dispatch "menu text" "Thorne" = SendAction.send "menu text" ↔
        ("menu text" : String).length < 1000) ∧
     (1000 ≤ ("menu text" : String).length →
        dispatch "menu text" "Thorne" = SendAction.alert "Thorne")) :=
  ⟨by decide, c7_send_iff_short "menu text" "Thorne" (by decide)⟩

/-- Counterexample to claim C8: a menu whose single category contains only a
whitespace-only item does NOT make the formatter return the empty string.
The `menu_formatter.py` version passes the emptiness guard and then
raises at the meal-name unpacking (embedded as `none ≠ some ""`), and the
crash-free `driver.py` version returns a non-empty header-plus-item
string. -/
theorem c8_blank_menu_counterexample :
    stringify .moulton .mon 12 "01 Jan 2025" [("Soup", [some "   "])] = none ∧
    driver_stringify .moulton .mon 12 "01 Jan 2025" (some [("Soup", [some "   "])]) ≠ "" := by
  constructor
  · rfl
  · decide

/-- Claim C8 as amended: `stringify` returns the empty string exactly when
the menu dict is empty or every category's item list is empty; a menu
whose categories contain only blank (whitespace-only or `None`) items
fails that guard and never yields the empty string — with the current
resolver the meal-name unpacking raises instead. -/
theorem c8_empty_iff_all_lists_empty (location : Location) (d : Day) (h : Nat)
    (timestamp : String) (menu : List (String × List (Option String))) :
    stringify location d h timestamp menu = some "" ↔
      menu.all (fun c => c.2.isEmpty) = true := by
  by_cases hg : menu.all (fun c => c.2.isEmpty) = true
  · simp [stringify, hg]
  · obtain ⟨m, hm, hu⟩ := models_returns_bare location d h
    unfold stringify
    rw [if_neg hg]
    simp only [hm, hu]
    simp [hg]

/-- Claim C9: `extract_records` produces one course entry and one item
entry per record (so two lists of equal length), a record with a missing
course element contributes the string "Uncategorized Course", and
`build_menu` applied to that output never hits an out-of-range index
(nor a missing key): it succeeds. -/
theorem c9_extract_records_shape_and_safety (records : List XmlRecord) :
    (extract_records records).1.length = (extract_records records).2.length ∧
    (∀ i : Fin records.length, (records.get i).course = none →
      (extract_records records).1[i.val]? = some (some "Uncategorized Course")) ∧
    (build_menu (extract_records records).1 (extract_records records).2).isSome := by
  refine ⟨by simp [extract_records], ?_, ?_⟩
  · intro i hci
    rw [List.get_eq_getElem] at hci
    simp only [extract_records, List.getElem?_map, List.getElem?_eq_getElem i.isLt,
      Option.map_some']
    simp [courseText, hci]
  · have hkeys : ∀ k ∈ records.map courseText,
        k ∈ (((records.map courseText).dedup.map
            fun k => (k, ([] : List (Option String)))).map Prod.fst) := by
      intro k hk
      rw [keys_of_init]
      exact List.mem_dedup.mpr hk
    have hsome :=
      populate_isSome (records.map courseText) (records.map itemText) 0
        ((records.map courseText).dedup.map fun k => (k, []))
        (by simp) hkeys
    obtain ⟨mv, hmv⟩ := Option.isSome_iff_exists.mp hsome
    simp only [extract_records, build_menu]
    rw [hmv]
    rfl

/-- Claim C10: for equal-length input lists, `build_menu` succeeds and every
key of the returned dict maps to a non-empty item list (the cleanup pass
deletes every key whose list is empty before returning). -/
theorem c10_menu_values_nonempty (course_values item_names : List (Option String))
    (hlen : course_values.length = item_names.length) :
    ∃ menu, build_menu course_values item_names = some menu ∧
      ∀ kv ∈ menu, kv.2 ≠ [] := by
  have hkeys : ∀ k ∈ course_values,
      k ∈ ((course_values.dedup.map
          fun k => (k, ([] : List (Option String)))).map Prod.fst) := by
    intro k hk
    rw [keys_of_init]
    exact List.mem_dedup.mpr hk
  have hsome :=
    populate_isSome course_values item_names 0
      (course_values.dedup.map fun k => (k, []))
      (by omega) hkeys
  obtain ⟨mv, hmv⟩ := Option.isSome_iff_exists.mp hsome
  refine ⟨mv.filter fun kv => !kv.2.isEmpty, ?_, ?_⟩
  · simp only [build_menu]
    rw [hmv]
  · intro kv hkv
    have hp := (List.mem_filter.mp hkv).2
    simp only [Bool.not_eq_true'] at hp
    intro he
    rw [he] at hp
    simp at hp

/-- Witness for C10 at concrete equal-length lists. -/
theorem c10_menu_values_nonempty_witness :
    ([some "Main Course", some "Desserts"] : List (Option String)).length =
      ([some "Pasta", none] : List (Option String)).length ∧
    ∃ menu,
      build_menu [some "Main Course", some "Desserts"] [some "Pasta", none] = some menu ∧
        ∀ kv ∈ menu, kv.2 ≠ [] :=
  ⟨rfl, c10_menu_values_nonempty _ _ rfl⟩
